import Mathlib

set_option maxRecDepth 8192

/-!
# Verification of js-debug-companion-cli

A shallow embedding of the session/target subsystem of the
`js-debug-companion-cli` repository (a fork of vscode-js-debug-companion
that runs as a standalone process), together with proofs and refutations
of the specification's claims.

The embedding covers:

* `src/vscode.ts` — the file contains two separate
  `EventEmitter`/`CancellationTokenSource` implementations; both are
  modelled here as explicit state machines (`CTS1` for the first, class
  `CancellationTokenSource` at lines 12-56; `CTS2`/`MutableToken` for the
  second, at lines 90-161).
* `src/spawn.ts` — `BrowserSpawner.findBrowserPath`, `getUserDataDir` and
  `launch`, modelled as pure functions over an explicit environment
  (`SpawnEnv`) that supplies the results of the effectful collaborators
  (browser discovery `findAll`, filesystem `exists`, `process.cwd()`,
  `process.platform`).
* The session registry (`SessionManager`) — its source file is not among
  the available sources, so it is modelled from the specification (§4.5);
  see `SessionManager` below.

Listener callbacks are identified by natural numbers; invoking a listener
is recorded by appending its identifier to an invocation trace, so that
"which listeners ran, in which order" is an observable value.
-/

/-! ## A minimal fragment of JavaScript values

Needed to model property lookup on object literals: reading an absent
property yields `undefined`, which is distinct from both `true` and
`false` (the unit tests compare with `assert.strictEqual`, i.e. `===`). -/

/-- A JavaScript value as far as the modelled code can observe it:
`undefined` or a boolean. -/
inductive JsVal : Type
  | undef : JsVal
  | bool : Bool → JsVal
  deriving DecidableEq, Repr

/-- JavaScript property lookup on a plain object given by its own data
properties: a missing key reads as `undefined`. -/
def jsLookup (props : List (String × JsVal)) (key : String) : JsVal :=
  match props.find? (fun p => p.1 == key) with
  | some p => p.2
  | none => JsVal.undef

/-! ## vscode.ts, first implementation (lines 12-56)

```ts
export class CancellationTokenSource {
  private _cancelled = false;
  private _listeners: Array<() => any> = [];
  public readonly token: CancellationToken = {
    get isCancellationRequested(): boolean { return this._cancelled; },
    onCancellationRequested: (listener) => {
      if (this._cancelled) { listener(); }
      else { this._listeners.push(listener); }
      return { dispose: () => { ...splice listener out... } };
    },
  };
  public cancel(): void {
    if (!this._cancelled) {
      this._cancelled = true;
      for (const listener of this._listeners) { listener(); }
      this._listeners = [];
    }
  }
  public dispose(): void { this._listeners = []; }
}
```

The state is the `_cancelled` flag and the `_listeners` array. Each
operation returns the successor state together with the list of listener
identifiers it invoked, in invocation order. The `Disposable` returned by
`onCancellationRequested` (which splices the listener out of the array) is
not modelled; no claim exercises it. -/

/-- State of the first `CancellationTokenSource` (vscode.ts:12-56):
the `_cancelled` flag and the `_listeners` array. -/
structure CTS1 where
  cancelled : Bool
  listeners : List Nat
  deriving DecidableEq, Repr

/-- A freshly constructed first-implementation source:
`_cancelled = false`, `_listeners = []`. -/
def CTS1.fresh : CTS1 := ⟨false, []⟩

/-- `token.onCancellationRequested(listener)` (vscode.ts:21-38): if the
source is already cancelled the listener is called immediately, otherwise
it is pushed onto `_listeners`. Returns the new state and the listeners
invoked by this call. Note the arrow function captures the enclosing
instance, so `this._cancelled` here really is the source's flag. -/
def CTS1.onCancellationRequested (s : CTS1) (l : Nat) : CTS1 × List Nat :=
  if s.cancelled then (s, [l])
  else ({ s with listeners := s.listeners ++ [l] }, [])

/-- `cancel()` (vscode.ts:41-51): when not yet cancelled, set the flag,
call every registered listener in order, then clear the list; when
already cancelled, do nothing. -/
def CTS1.cancel (s : CTS1) : CTS1 × List Nat :=
  if s.cancelled then (s, [])
  else ({ cancelled := true, listeners := [] }, s.listeners)

/-- `dispose()` (vscode.ts:53-55): clears the listener list without
setting the cancelled flag. -/
def CTS1.dispose (s : CTS1) : CTS1 :=
  { s with listeners := [] }

/-- Own data properties of the `token` object literal (vscode.ts:16-39).
The literal declares only the accessor `isCancellationRequested` and the
method `onCancellationRequested`; it has no `_cancelled` data property. -/
def CTS1.tokenOwnProps (_s : CTS1) : List (String × JsVal) := []

/-- `token.isCancellationRequested` (vscode.ts:17-19):
`get isCancellationRequested(): boolean { return this._cancelled; }`.
Inside a getter of an object literal, `this` is bound to the receiver —
the token object itself — not to the enclosing
`CancellationTokenSource` instance (only arrow functions capture the
instance). The token object has no `_cancelled` own property, so the
read evaluates to `undefined`, whatever the source's flag is. -/
def CTS1.isCancellationRequested (s : CTS1) : JsVal :=
  jsLookup (CTS1.tokenOwnProps s) "_cancelled"

/-! ## vscode.ts, second implementation (lines 90-161)

```ts
export class EventEmitter<T> { ... on('event', listener) ... fire -> emit }
class MutableToken implements CancellationToken {
  private _isCancelled: boolean = false;
  private _emitter: EventEmitter<any> | null = null;
  public cancel(): void {
    if (!this._isCancelled) {
      this._isCancelled = true;
      if (this._emitter) { this._emitter.fire(undefined); }
    }
  }
  get isCancellationRequested(): boolean { return this._isCancelled; }
  get onCancellationRequested(): Event<any> {
    if (!this._emitter) { this._emitter = new EventEmitter<any>(); }
    return this._emitter.event;
  }
}
export class CancellationTokenSource implements Disposable {
  private _token: MutableToken | undefined;
  private _isCancelled: boolean = false;
  public get token(): CancellationToken {
    if (!this._token) {
      this._token = new MutableToken();
      if (this._isCancelled) { this._token.cancel(); }
    }
    return this._token;
  }
  public cancel(): void {
    this._isCancelled = true;
    if (this._token) { this._token.cancel(); }
  }
  public dispose(): void { this.cancel(); }
}
```

The `EventEmitter` here is a thin wrapper over a Node `EventEmitter` with
a single event name; for the purposes of these claims it is an ordered
list of listeners which `fire` invokes in registration order (Node's
`emit` calls listeners synchronously in the order they were added).
A `MutableToken`'s `_emitter` field is `null` until the
`onCancellationRequested` accessor is first read; that nullable emitter
is modelled as `Option (List Nat)`. -/

/-- State of a `MutableToken` (vscode.ts:112-135): the `_isCancelled`
flag and the nullable `_emitter` (its listener list, in registration
order). -/
structure MutableToken where
  isCancelled : Bool
  emitter : Option (List Nat)
  deriving DecidableEq, Repr

/-- `MutableToken.cancel()` (vscode.ts:116-123): when not yet cancelled,
set the flag and, if the emitter exists, fire it — invoking every
registered listener in order. Listeners remain registered on the
emitter; re-firing is prevented only by the `_isCancelled` guard. -/
def MutableToken.cancel (t : MutableToken) : MutableToken × List Nat :=
  if t.isCancelled then (t, [])
  else ({ t with isCancelled := true }, t.emitter.getD [])

/-- Reading `onCancellationRequested` and subscribing a listener
(vscode.ts:129-134 plus `EventEmitter.event`, vscode.ts:93-100): the
accessor creates the emitter if it is still `null`, and the returned
`Event` adds the listener to it. Nothing is invoked — in particular,
a listener attached after cancellation is merely queued on an emitter
that will never fire again. -/
def MutableToken.onCancellationRequested (t : MutableToken) (l : Nat) : MutableToken :=
  { t with emitter := some (t.emitter.getD [] ++ [l]) }

/-- `MutableToken`'s `isCancellationRequested` getter (vscode.ts:125-127)
is a class accessor, so `this` is the token instance and the read returns
the actual flag. -/
def MutableToken.isCancellationRequested (t : MutableToken) : JsVal :=
  JsVal.bool t.isCancelled

/-- State of the second `CancellationTokenSource` (vscode.ts:137-161):
the lazily created `_token` and the source's own `_isCancelled` flag. -/
structure CTS2 where
  token : Option MutableToken
  isCancelled : Bool
  deriving DecidableEq, Repr

/-- A freshly constructed second-implementation source. -/
def CTS2.fresh : CTS2 := ⟨none, false⟩

/-- The `token` getter (vscode.ts:141-149): create the `MutableToken` on
first access, cancelling it immediately when the source was already
cancelled (at that point its emitter is still `null`, so nothing fires).
Returns the updated source and the token that the caller now holds. -/
def CTS2.getToken (s : CTS2) : CTS2 × MutableToken :=
  match s.token with
  | some t => (s, t)
  | none =>
      let t0 : MutableToken := ⟨false, none⟩
      let t1 := if s.isCancelled then (t0.cancel).1 else t0
      ({ s with token := some t1 }, t1)

/-- `source.cancel()` (vscode.ts:151-156): set the source flag
(unconditionally) and cancel the token if it exists. Returns the invoked
listeners. -/
def CTS2.cancel (s : CTS2) : CTS2 × List Nat :=
  match s.token with
  | some t =>
      let r := t.cancel
      ({ token := some r.1, isCancelled := true }, r.2)
  | none => ({ s with isCancelled := true }, [])

/-- `source.dispose()` (vscode.ts:158-160) just delegates to `cancel`. -/
def CTS2.dispose (s : CTS2) : CTS2 × List Nat :=
  s.cancel

/-- `source.token.onCancellationRequested(listener)` on the second
implementation: read the token (creating it if needed), subscribe the
listener on it, and store the mutated token back (in JavaScript the
source aliases the same object). No listener is ever invoked by this
operation. -/
def CTS2.onCancellationRequested (s : CTS2) (l : Nat) : CTS2 :=
  let r := s.getToken
  { r.1 with token := some (r.2.onCancellationRequested l) }

/-- `source.token.isCancellationRequested` on the second implementation:
read the token (creating it if needed) and return its flag. -/
def CTS2.isCancellationRequested (s : CTS2) : JsVal :=
  (s.getToken).2.isCancellationRequested

/-! ## Common traces over both cancellation implementations

To compare the two implementations (claim C9) we run the same sequence of
operations through each, collecting the concatenated invocation trace. -/

/-- An operation applied identically to both cancellation sources:
attach a listener, or call `cancel()`. -/
inductive CancelOp : Type
  | reg : Nat → CancelOp
  | cancel : CancelOp
  deriving DecidableEq, Repr

/-- One step of the first implementation, threading the invocation
trace. -/
def CTS1.step : CTS1 × List Nat → CancelOp → CTS1 × List Nat
  | (s, acc), CancelOp.reg l =>
      let r := s.onCancellationRequested l
      (r.1, acc ++ r.2)
  | (s, acc), CancelOp.cancel =>
      let r := s.cancel
      (r.1, acc ++ r.2)

/-- Run a sequence of operations on a fresh first-implementation source;
returns the final state and every listener invocation, in order. -/
def CTS1.run (ops : List CancelOp) : CTS1 × List Nat :=
  ops.foldl CTS1.step (CTS1.fresh, [])

/-- One step of the second implementation, threading the invocation
trace. -/
def CTS2.step : CTS2 × List Nat → CancelOp → CTS2 × List Nat
  | (s, acc), CancelOp.reg l => (s.onCancellationRequested l, acc)
  | (s, acc), CancelOp.cancel =>
      let r := s.cancel
      (r.1, acc ++ r.2)

/-- Run a sequence of operations on a fresh second-implementation source;
returns the final state and every listener invocation, in order. -/
def CTS2.run (ops : List CancelOp) : CTS2 × List Nat :=
  ops.foldl CTS2.step (CTS2.fresh, [])

/-! ## spawn.ts — `BrowserSpawner`

The effectful collaborators (browser discovery via
`@vscode/js-debug-browsers`, the filesystem `exists` check, the process
environment) are supplied through an explicit `SpawnEnv`; `launch`
becomes a pure function from environment and parameters to either an
error or a description of the `spawn(...)` call it performs and the
`Target` it wraps it in. -/

/-- The browser kinds `BrowserSpawner` has finders for
(spawn.ts:25-29). `ILaunchParams.type` (cli.ts:17) is restricted to
`chrome | edge`; `findBrowserPath` additionally accepts `firefox`.
Because this enumeration is closed, the `!(type in this.finders)` check
at spawn.ts:38 can never fire and is not modelled. -/
inductive BrowserType : Type
  | chrome : BrowserType
  | edge : BrowserType
  | firefox : BrowserType
  deriving DecidableEq, Repr

/-- One discovered browser installation, as returned by the external
finders' `findAll()`: a quality name and an executable path. -/
structure Installation where
  quality : String
  path : String
  deriving DecidableEq, Repr

/-- The quality names recognised by the external
`@vscode/js-debug-browsers` library's `isQuality`. -/
def qualities : List String :=
  ["stable", "beta", "dev", "canary", "custom"]

/-- `isQuality(s)` from `@vscode/js-debug-browsers` (imported at
spawn.ts:10): whether `s` is one of the known quality names. -/
def isQuality (s : String) : Bool :=
  qualities.contains s

/-- `IWslInfo` (cli.ts:10-14): executable path of the nested distro,
distro name, and user name. -/
structure IWslInfo where
  execPath : String
  distro : String
  user : String
  deriving DecidableEq, Repr

/-- The requested `userDataDir` (cli.ts:31): `boolean | string`. -/
inductive UserDataDirReq : Type
  | ofBool : Bool → UserDataDirReq
  | ofString : String → UserDataDirReq
  deriving DecidableEq, Repr

/-- The `params` sub-object of `ILaunchParams` (cli.ts:28-34). The `env`
record of environment overrides is not modelled: no claim refers to the
child environment. -/
structure ChromiumParams where
  runtimeExecutable : String
  userDataDir : UserDataDirReq
  cwd : Option String
  webRoot : Option String
  deriving DecidableEq, Repr

/-- `ILaunchParams` (cli.ts:16-35). `path`, `proxyUri`, `launchId` and
`attach` are carried but unused by `BrowserSpawner.launch`. -/
structure ILaunchParams where
  type : BrowserType
  path : String
  proxyUri : String
  launchId : Int
  browserArgs : List String
  wslInfo : Option IWslInfo
  attach : Option (String × Int)
  params : ChromiumParams
  deriving DecidableEq, Repr

/-- The ambient effectful context `BrowserSpawner` reads:
`findAll()` results per browser kind, the filesystem `exists` test,
`process.cwd()` and whether `process.platform === 'win32'`. -/
structure SpawnEnv where
  findAll : BrowserType → List Installation
  fsExists : String → Bool
  processCwd : String
  isWin32 : Bool

/-- The error raised when `findBrowserPath` cannot resolve an
installation (`UserError`, spawn.ts:49-59). The payloads carry what the
source interpolates into the message text. -/
inductive SpawnError : Type
  | noInstallation : BrowserType → SpawnError
  | versionNotFound : BrowserType → String → List Installation → SpawnError
  deriving DecidableEq, Repr

/-- `findBrowserPath(type, runtimeExecutable)` (spawn.ts:33-62): a
non-`*`, non-quality `runtimeExecutable` is returned verbatim; otherwise
the discovered installations are consulted — `*` picks the stable
installation, falling back to the first (`?? available[0]`), while a
quality name must match exactly; failure to resolve raises a
`UserError`, with a dedicated message when `stable` was requested and
nothing at all was discovered. -/
def findBrowserPath (env : SpawnEnv) (type : BrowserType)
    (runtimeExecutable : String) : Except SpawnError String :=
  if runtimeExecutable ≠ "*" ∧ ¬ isQuality runtimeExecutable then
    Except.ok runtimeExecutable
  else
    let available := env.findAll type
    let resolved : Option Installation :=
      if runtimeExecutable = "*" then
        (available.find? (fun r => r.quality == "stable")).orElse
          (fun _ => available.head?)
      else
        available.find? (fun r => r.quality == runtimeExecutable)
    match resolved with
    | some r => Except.ok r.path
    | none =>
        if runtimeExecutable = "stable" ∧ available.isEmpty then
          Except.error (SpawnError.noInstallation type)
        else
          Except.error (SpawnError.versionNotFound type runtimeExecutable available)

/-- `path.join(a, b)` for the already-normalised operands the source
passes it (a storage directory and a bare profile-directory name). -/
def pathJoin (a b : String) : String :=
  a ++ "/" ++ b

/-- `getUserDataDir(params)` (spawn.ts:82-102): `false` means no
directory (`undefined`); otherwise the default is
`join(storagePath, '--headless' ∈ browserArgs ? '.headless-profile' : '.profile')`,
returned for `true` and for a requested string that does not exist on
disk; an existing requested string is returned as-is. -/
def getUserDataDir (env : SpawnEnv) (storagePath : String)
    (params : ILaunchParams) : Option String :=
  match params.params.userDataDir with
  | UserDataDirReq.ofBool false => none
  | requested =>
      let defaultDir := pathJoin storagePath
        (if params.browserArgs.contains "--headless" then ".headless-profile"
         else ".profile")
      match requested with
      | UserDataDirReq.ofBool _ => some defaultDir
      | UserDataDirReq.ofString s =>
          if env.fsExists s then some s else some defaultDir

/-- JavaScript `a || b` on `string | null` operands: `a` unless it is
`null` or the empty string. Used for `params.params.cwd || params.params.webRoot`
(spawn.ts:135). -/
def jsOrStr (a b : Option String) : Option String :=
  match a with
  | some s => if s = "" then b else some s
  | none => b

/-- The `stdio` option of the two `spawn(...)` calls in `launch`
(spawn.ts:152 and spawn.ts:166): either
`['ignore','ignore','ignore','pipe','pipe']` — pipes on file descriptors
3 and 4 — or `'ignore'`. -/
inductive StdioConfig : Type
  | pipeFds34 : StdioConfig
  | ignoreAll : StdioConfig
  deriving DecidableEq, Repr

/-- A `spawn(command, args, options)` call as issued by `launch`. The
`env` option is not modelled (no claim refers to it); `Number(port)` is
kept as the raw digit string it is applied to. -/
structure SpawnCall where
  command : String
  args : List String
  detached : Bool
  stdio : StdioConfig
  cwd : String
  deriving DecidableEq, Repr

/-- The result of a successful `launch`: a `PipedTarget` wrapping its
child process (spawn.ts:142-155), or a `ServerTarget` wrapping its child
process and the debug port (spawn.ts:163-170; the source converts the
port string with `Number(...)` before `ServerTarget.create`, kept here
as the raw string). -/
inductive LaunchTarget : Type
  | piped : SpawnCall → LaunchTarget
  | server : SpawnCall → String → LaunchTarget
  deriving DecidableEq, Repr

/-- JavaScript `a.startsWith(pre)`, modelled at character level: the
character sequence of `pre` is a prefix of that of `a`. -/
def strStartsWith (a pre : String) : Bool :=
  pre.data.isPrefixOf a.data

/-- JavaScript `a.slice(n)` (for the in-range `n` the source uses),
modelled at character level: drop the first `n` characters. -/
def strDrop (a : String) (n : Nat) : String :=
  ⟨a.data.drop n⟩

/-- `debugPortPrefix` (spawn.ts:21). -/
def debugPortPrefix : String := "--remote-debugging-port="

/-- `debugPipeArg` (spawn.ts:22) — textually identical to
`debugPortPrefix` in this source. -/
def debugPipeArg : String := "--remote-debugging-port="

/-- The argument-list computation of `launch` (spawn.ts:125-130):
copy `browserArgs` and prepend `--user-data-dir=<dir>` when a directory
was computed. -/
def launchArgs (env : SpawnEnv) (storagePath : String)
    (params : ILaunchParams) : List String :=
  match getUserDataDir env storagePath params with
  | some dir => ("--user-data-dir=" ++ dir) :: params.browserArgs
  | none => params.browserArgs

/-- The working-directory computation of `launch` (spawn.ts:135-138):
`params.params.cwd || params.params.webRoot`, replaced by
`process.cwd()` when unset or not existing on disk. -/
def launchCwd (env : SpawnEnv) (params : ILaunchParams) : String :=
  match jsOrStr params.params.cwd params.params.webRoot with
  | some c => if env.fsExists c then c else env.processCwd
  | none => env.processCwd

/-- `BrowserSpawner.launch(params)` (spawn.ts:122-171). Resolve the
binary; build the argument list (`launchArgs`) and working directory
(`launchCwd`); then choose the transport: the suffix of the first
argument starting with `--remote-debugging-port=` is the port, and a
missing or empty port (`if (!port)`, spawn.ts:141 — the empty string is
falsy in JavaScript) selects the pipe transport with descriptors 3/4;
otherwise the bare `--remote-debugging-port=` argument is prepended
unless already present, stdio is ignored, and a `ServerTarget` is made
for the port. Note: `params.wslInfo` is never read anywhere in
`launch`. -/
def launch (env : SpawnEnv) (storagePath : String)
    (params : ILaunchParams) : Except SpawnError LaunchTarget :=
  match findBrowserPath env params.type params.params.runtimeExecutable with
  | Except.error e => Except.error e
  | Except.ok binary =>
    let args := launchArgs env storagePath params
    let cwd := launchCwd env params
    match (args.find? (fun a => strStartsWith a debugPortPrefix)).map
        (fun a => strDrop a debugPortPrefix.length) with
    | none =>
        Except.ok (LaunchTarget.piped
          { command := binary, args := args, detached := ¬ env.isWin32,
            stdio := StdioConfig.pipeFds34, cwd := cwd })
    | some p =>
        if p = "" then
          Except.ok (LaunchTarget.piped
            { command := binary, args := args, detached := ¬ env.isWin32,
              stdio := StdioConfig.pipeFds34, cwd := cwd })
        else
          let args2 :=
            if args.contains debugPipeArg then args else debugPipeArg :: args
          Except.ok (LaunchTarget.server
            { command := binary, args := args2, detached := ¬ env.isWin32,
              stdio := StdioConfig.ignoreAll, cwd := cwd } p)

/-- The argument list of the `spawn(...)` call a launch target wraps. -/
def LaunchTarget.spawnArgs : LaunchTarget → List String
  | LaunchTarget.piped c => c.args
  | LaunchTarget.server c _ => c.args

/-! ## The session registry (`SessionManager`) -/

/-- The error a `create` call fails with, per spec §4.5: a second
`create` on a live identifier is rejected, and a spawner failure is
surfaced to the caller. -/
inductive CreateError : Type
  | duplicateId : CreateError
  | spawnFailed : SpawnError → CreateError
  deriving DecidableEq, Repr

/-- Modelled from the spec: `sessionManager.ts` — the `SessionManager`
class that `cli.ts` instantiates (cli.ts:38, cli.ts:71) with `create`,
`destroy` and `dispose` — is absent from the available sources; this
registry is modelled from spec §4.5 ("Session registry") and §3
("Session registry entry"). State: the identifier → Target mapping,
single-writer, at most one live Target per identifier. Targets are
identified by opaque handles. -/
structure SessionManager where
  targets : List (Int × Nat)
  deriving DecidableEq, Repr

/-- A registry with no sessions. -/
def SessionManager.empty : SessionManager := ⟨[]⟩

/-- Whether `id` currently has a live Target. -/
def SessionManager.registered (sm : SessionManager) (id : Int) : Bool :=
  sm.targets.any (fun e => e.1 == id)

/-- The number of entries registered under `id`. -/
def SessionManager.countFor (sm : SessionManager) (id : Int) : Nat :=
  (sm.targets.filter (fun e => e.1 == id)).length

/-- Modelled from the spec (§4.5 `create`): reject synchronously when
`id` already has a live Target — before consulting the spawner, so no
process is spawned; otherwise delegate to the spawner and register the
resulting Target before returning success, registering nothing when
the spawn fails. The returned `Bool` records whether the spawner
collaborator was invoked. -/
def SessionManager.create (sm : SessionManager) (id : Int)
    (spawner : Unit → Except SpawnError Nat) :
    Except CreateError Unit × SessionManager × Bool :=
  if sm.registered id then
    (Except.error CreateError.duplicateId, sm, false)
  else
    match spawner () with
    | Except.error e => (Except.error (CreateError.spawnFailed e), sm, true)
    | Except.ok t => (Except.ok (), ⟨(id, t) :: sm.targets⟩, true)

/-- Modelled from the spec (§4.5 `destroy`): total — it never fails. An
unregistered `id` is a no-op; a registered `id` has its Target stopped
and its entry removed. Returns the new registry and the handles of the
Targets that were stopped. -/
def SessionManager.destroy (sm : SessionManager) (id : Int) :
    SessionManager × List Nat :=
  (⟨sm.targets.filter (fun e => !(e.1 == id))⟩,
   (sm.targets.filter (fun e => e.1 == id)).map (fun e => e.2))

/-! ## Helper lemmas: runs of the cancellation state machines -/

lemma cts1_foldl_regs (regs : List Nat) (L acc : List Nat) :
    (regs.map CancelOp.reg).foldl CTS1.step (⟨false, L⟩, acc)
      = (⟨false, L ++ regs⟩, acc) := by
  induction regs generalizing L with
  | nil => simp
  | cons r rs ih =>
      simp [CTS1.step, CTS1.onCancellationRequested, ih, List.append_assoc]

lemma cts1_run_regs (regs : List Nat) :
    CTS1.run (regs.map CancelOp.reg) = (⟨false, regs⟩, []) := by
  simpa [CTS1.run, CTS1.fresh] using cts1_foldl_regs regs [] []

lemma cts1_foldl_cancels (k : Nat) (s : CTS1) (acc : List Nat)
    (h : s.cancelled = true) :
    (List.replicate k CancelOp.cancel).foldl CTS1.step (s, acc) = (s, acc) := by
  induction k with
  | zero => simp
  | succ n ih => simp [List.replicate_succ, CTS1.step, CTS1.cancel, h, ih]

lemma cts2_foldl_regs (regs : List Nat) (L : List Nat) (acc : List Nat) :
    (regs.map CancelOp.reg).foldl CTS2.step
        ((⟨some ⟨false, some L⟩, false⟩ : CTS2), acc)
      = ((⟨some ⟨false, some (L ++ regs)⟩, false⟩ : CTS2), acc) := by
  induction regs generalizing L with
  | nil => simp
  | cons r rs ih =>
      simp [CTS2.step, CTS2.onCancellationRequested, CTS2.getToken,
        MutableToken.onCancellationRequested, ih, List.append_assoc]

lemma cts2_run_regs (regs : List Nat) :
    CTS2.run (regs.map CancelOp.reg)
      = (if regs.isEmpty then CTS2.fresh
         else (⟨some ⟨false, some regs⟩, false⟩ : CTS2), []) := by
  cases regs with
  | nil => simp [CTS2.run]
  | cons r rs =>
      simp only [List.map_cons, CTS2.run, List.foldl_cons, List.isEmpty_cons]
      have h1 : CTS2.step (CTS2.fresh, []) (CancelOp.reg r)
          = ((⟨some ⟨false, some [r]⟩, false⟩ : CTS2), []) := rfl
      rw [h1]
      simpa using cts2_foldl_regs rs [r] []

lemma cts2_foldl_cancels (k : Nat) (t : MutableToken) (acc : List Nat)
    (h : t.isCancelled = true) :
    (List.replicate k CancelOp.cancel).foldl CTS2.step ((⟨some t, true⟩ : CTS2), acc)
      = ((⟨some t, true⟩ : CTS2), acc) := by
  induction k with
  | zero => simp
  | succ n ih => simp [List.replicate_succ, CTS2.step, CTS2.cancel, MutableToken.cancel, h, ih]

lemma cts2_foldl_cancels_none (k : Nat) (acc : List Nat) :
    (List.replicate k CancelOp.cancel).foldl CTS2.step ((⟨none, true⟩ : CTS2), acc)
      = ((⟨none, true⟩ : CTS2), acc) := by
  induction k with
  | zero => simp
  | succ n ih => simp [List.replicate_succ, CTS2.step, CTS2.cancel, ih]

lemma cts1_run_reg_cancel (regs : List Nat) (k : Nat) :
    CTS1.run (regs.map CancelOp.reg ++ List.replicate k CancelOp.cancel)
      = if k = 0 then ((⟨false, regs⟩ : CTS1), [])
        else ((⟨true, []⟩ : CTS1), regs) := by
  have h0 : CTS1.run (regs.map CancelOp.reg ++ List.replicate k CancelOp.cancel)
      = (List.replicate k CancelOp.cancel).foldl CTS1.step ((⟨false, regs⟩ : CTS1), []) := by
    rw [CTS1.run, List.foldl_append]
    have := cts1_run_regs regs
    rw [CTS1.run] at this
    rw [this]
  rw [h0]
  cases k with
  | zero => simp
  | succ n =>
      simp only [List.replicate_succ, List.foldl_cons, Nat.succ_ne_zero, if_false]
      have h1 : CTS1.step ((⟨false, regs⟩ : CTS1), []) CancelOp.cancel
          = ((⟨true, []⟩ : CTS1), regs) := by
        simp [CTS1.step, CTS1.cancel]
      rw [h1, cts1_foldl_cancels n _ _ rfl]

lemma cts2_run_reg_cancel (regs : List Nat) (k : Nat) :
    (CTS2.run (regs.map CancelOp.reg ++ List.replicate k CancelOp.cancel)).2
      = if k = 0 then [] else regs := by
  have h0 : CTS2.run (regs.map CancelOp.reg ++ List.replicate k CancelOp.cancel)
      = (List.replicate k CancelOp.cancel).foldl CTS2.step (CTS2.run (regs.map CancelOp.reg)) := by
    rw [CTS2.run, CTS2.run, List.foldl_append]
  rw [h0, cts2_run_regs]
  cases regs with
  | nil =>
      simp only [List.isEmpty_nil, if_true]
      cases k with
      | zero => simp
      | succ n =>
          simp only [List.replicate_succ, List.foldl_cons]
          have h1 : CTS2.step (CTS2.fresh, []) CancelOp.cancel
              = ((⟨none, true⟩ : CTS2), []) := rfl
          rw [h1, cts2_foldl_cancels_none]
          simp
  | cons r rs =>
      simp only [List.isEmpty_cons, if_false, Bool.false_eq_true]
      cases k with
      | zero => simp
      | succ n =>
          simp only [List.replicate_succ, List.foldl_cons]
          have h1 : CTS2.step ((⟨some ⟨false, some (r :: rs)⟩, false⟩ : CTS2), [])
                CancelOp.cancel
              = ((⟨some ⟨true, some (r :: rs)⟩, true⟩ : CTS2), r :: rs) := by
            simp [CTS2.step, CTS2.cancel, MutableToken.cancel]
          rw [h1, cts2_foldl_cancels n _ _ rfl]
          simp

/-- Claim C6: for every cancellation source, the signal fires at most
once. In the first implementation, the listeners registered before
cancellation are invoked exactly once, in registration order, by the
first `cancel()`, the listener list is cleared by that call, and any
subsequent `cancel()` invokes no listener. In the second implementation
the first `cancel()` likewise invokes exactly the registered listeners
in order and a subsequent `cancel()` invokes none (there the guard is
the `_isCancelled` flag rather than list clearing). -/
theorem claim_C6_cancel_fires_once (regs : List Nat) :
    (((CTS1.run (regs.map CancelOp.reg)).1.cancel).2 = regs
      ∧ ((CTS1.run (regs.map CancelOp.reg)).1.cancel).1.listeners = []
      ∧ ((((CTS1.run (regs.map CancelOp.reg)).1.cancel).1).cancel).2 = [])
    ∧ (((CTS2.run (regs.map CancelOp.reg)).1.cancel).2 = regs
      ∧ ((((CTS2.run (regs.map CancelOp.reg)).1.cancel).1).cancel).2 = []) := by
  constructor
  · rw [cts1_run_regs]
    refine ⟨rfl, rfl, rfl⟩
  · rw [cts2_run_regs]
    cases regs with
    | nil => exact ⟨rfl, rfl⟩
    | cons r rs =>
        simp only [List.isEmpty_cons, if_false, Bool.false_eq_true]
        exact ⟨rfl, rfl⟩

/-- Claim C7 (counterexample): in the second implementation
(vscode.ts:90-161), after `cancel()` has been called on a fresh source,
attaching listener `0` does not invoke it — the run of
`[cancel, reg 0]` has an empty invocation trace, the listener merely
sits on the token's emitter, and even a further `cancel()` never
invokes it. This refutes the claim that a listener attached after
cancellation is invoked immediately. -/
theorem claim_C7_counterexample :
    (CTS2.run [CancelOp.cancel, CancelOp.reg 0]).2 = []
    ∧ (CTS2.run [CancelOp.cancel, CancelOp.reg 0]).1
        = (⟨some ⟨true, some [0]⟩, true⟩ : CTS2)
    ∧ (CTS2.run [CancelOp.cancel, CancelOp.reg 0, CancelOp.cancel]).2 = [] := by
  exact ⟨rfl, rfl, rfl⟩

/-- Claim C7 (amended): only the first implementation (vscode.ts:12-56)
invokes a listener attached after cancellation immediately (leaving the
state unchanged); in the second implementation (vscode.ts:90-161) such a
listener is queued on the token's emitter and never invoked, even by
further `cancel()` calls. -/
theorem claim_C7_amended :
    (∀ (s : CTS1) (l : Nat), s.cancelled = true →
      s.onCancellationRequested l = (s, [l]))
    ∧ (∀ l : Nat,
        (CTS2.run [CancelOp.cancel, CancelOp.reg l, CancelOp.cancel]).2 = []) := by
  constructor
  · intro s l h
    simp [CTS1.onCancellationRequested, h]
  · intro l
    rfl

/-- Witness for `claim_C7_amended` at a concrete cancelled state. -/
theorem claim_C7_witness :
    (⟨true, []⟩ : CTS1).onCancellationRequested 0 = ((⟨true, []⟩ : CTS1), [0]) :=
  claim_C7_amended.1 ⟨true, []⟩ 0 rfl

/-- Claim C8 (code bug, evaluated at the failing input): in the first
implementation (the one the unit tests import), the token's
`isCancellationRequested` getter reads `this._cancelled` with `this`
bound to the token object literal, which has no such property — so it
evaluates to `undefined` both before and after `cancel()`. Under
`assert.strictEqual` this is neither `false` (the test at
part_000:67-72 expects `false` before cancellation) nor `true` (the
test at part_000:74-81 expects `true` after `cancel()` returns). -/
theorem claim_C8_failing_eval :
    CTS1.fresh.isCancellationRequested = JsVal.undef
    ∧ ((CTS1.fresh.cancel).1).cancelled = true
    ∧ ((CTS1.fresh.cancel).1).isCancellationRequested = JsVal.undef
    ∧ JsVal.undef ≠ JsVal.bool true
    ∧ JsVal.undef ≠ JsVal.bool false := by
  refine ⟨rfl, rfl, rfl, ?_, ?_⟩ <;> intro h <;> cases h

/-- Claim C9 (counterexample): the two implementations are not
observationally equivalent — after the operation sequence `[cancel]`
applied to a fresh source of each, reading
`token.isCancellationRequested` observes `undefined` on the first
implementation but `true` on the second. -/
theorem claim_C9_counterexample :
    ((CTS1.fresh.cancel).1).isCancellationRequested = JsVal.undef
    ∧ ((CTS2.fresh.cancel).1).isCancellationRequested = JsVal.bool true
    ∧ JsVal.undef ≠ JsVal.bool true := by
  refine ⟨rfl, rfl, ?_⟩
  intro h
  cases h

/-- Claim C9 (amended): the two implementations agree on listener
invocations for every sequence consisting of listener registrations
followed by `cancel()` calls — both invoke exactly the listeners
registered before the first `cancel()`, once each, in registration
order. (They are distinguished by `isCancellationRequested` reads, by
registrations made after cancellation, and by `dispose`.) -/
theorem claim_C9_amended (regs : List Nat) (k : Nat) :
    (CTS1.run (regs.map CancelOp.reg ++ List.replicate k CancelOp.cancel)).2
      = (CTS2.run (regs.map CancelOp.reg ++ List.replicate k CancelOp.cancel)).2 := by
  rw [cts1_run_reg_cancel, cts2_run_reg_cancel]
  cases k <;> simp

/-- Claim C1: after `create(id, p)` succeeds on a registry with no live
Target under `id`, exactly one Target is registered under `id`, and a
second `create(id, p')` before any `destroy` is rejected synchronously:
it returns the duplicate-identifier error, does not invoke the spawner
(so no process is spawned), and leaves the registry unchanged. -/
theorem claim_C1_create_unique (sm : SessionManager) (id : Int)
    (spawner spawner2 : Unit → Except SpawnError Nat) (t : Nat)
    (hfree : sm.registered id = false)
    (hspawn : spawner () = Except.ok t) :
    (sm.create id spawner).1 = Except.ok ()
    ∧ ((sm.create id spawner).2.1).countFor id = 1
    ∧ ((sm.create id spawner).2.1).create id spawner2
        = (Except.error CreateError.duplicateId, (sm.create id spawner).2.1, false) := by
  have hnone : ∀ e ∈ sm.targets, (e.1 == id) = false := by
    simpa [SessionManager.registered, List.any_eq_true] using hfree
  have hcr : sm.create id spawner = (Except.ok (), ⟨(id, t) :: sm.targets⟩, true) := by
    simp [SessionManager.create, hfree, hspawn]
  have hfilter : sm.targets.filter (fun e => e.1 == id) = [] := by
    refine List.filter_eq_nil_iff.mpr ?_
    intro a ha
    simp [hnone a ha]
  refine ⟨by rw [hcr], ?_, ?_⟩
  · rw [hcr]
    simp [SessionManager.countFor, hfilter]
  · rw [hcr]
    simp [SessionManager.create, SessionManager.registered]

/-- Claim C2: `destroy(id)` is a total idempotent cleanup. On an
unregistered `id` it is a no-op returning the registry unchanged with
nothing stopped; it always leaves `id` unregistered; on a registered
`id` it stops at least one Target; and a second `destroy(id)` has no
additional effect. -/
theorem claim_C2_destroy_idempotent (sm : SessionManager) (id : Int) :
    (sm.registered id = false → sm.destroy id = (sm, []))
    ∧ ((sm.destroy id).1).registered id = false
    ∧ (sm.registered id = true → (sm.destroy id).2 ≠ [])
    ∧ ((sm.destroy id).1).destroy id = ((sm.destroy id).1, []) := by
  refine ⟨?_, ?_, ?_, ?_⟩
  · intro hfree
    have hnone : ∀ e ∈ sm.targets, (e.1 == id) = false := by
      simpa [SessionManager.registered, List.any_eq_true] using hfree
    have h1 : sm.targets.filter (fun e => !(e.1 == id)) = sm.targets := by
      refine List.filter_eq_self.mpr ?_
      intro a ha
      simp [hnone a ha]
    have h2 : sm.targets.filter (fun e => e.1 == id) = [] := by
      refine List.filter_eq_nil_iff.mpr ?_
      intro a ha
      simp [hnone a ha]
    simp [SessionManager.destroy, h1, h2]
  · simp only [SessionManager.destroy, SessionManager.registered]
    rw [List.any_eq_false]
    intro e he
    have := (List.mem_filter.mp he).2
    simp at this
    simp [this]
  · intro hreg
    have hreg2 : sm.targets.any (fun e => e.1 == id) = true := hreg
    obtain ⟨e, he, hp⟩ := List.any_eq_true.mp hreg2
    have hmem : e ∈ sm.targets.filter (fun e => e.1 == id) :=
      List.mem_filter.mpr ⟨he, hp⟩
    simp only [SessionManager.destroy, ne_eq, List.map_eq_nil_iff]
    intro hnil
    rw [hnil] at hmem
    simp at hmem
  · simp [SessionManager.destroy, List.filter_filter, Bool.and_not_self]

/-- Witness for `claim_C1_create_unique` on the empty registry. -/
theorem claim_C1_witness :
    (SessionManager.empty.create 7 (fun _ => Except.ok 3)).1 = Except.ok ()
    ∧ ((SessionManager.empty.create 7 (fun _ => Except.ok 3)).2.1).countFor 7 = 1
    ∧ ((SessionManager.empty.create 7 (fun _ => Except.ok 3)).2.1).create 7
          (fun _ => Except.ok 4)
        = (Except.error CreateError.duplicateId,
           (SessionManager.empty.create 7 (fun _ => Except.ok 3)).2.1, false) :=
  claim_C1_create_unique SessionManager.empty 7 _ _ 3 rfl rfl

/-- Witness for `claim_C2_destroy_idempotent` on a concrete registry. -/
theorem claim_C2_witness :
    ((⟨[(7, 3)]⟩ : SessionManager).registered 7 = false
        → (⟨[(7, 3)]⟩ : SessionManager).destroy 7 = (⟨[(7, 3)]⟩, []))
    ∧ (((⟨[(7, 3)]⟩ : SessionManager).destroy 7).1).registered 7 = false
    ∧ ((⟨[(7, 3)]⟩ : SessionManager).registered 7 = true
        → ((⟨[(7, 3)]⟩ : SessionManager).destroy 7).2 ≠ [])
    ∧ (((⟨[(7, 3)]⟩ : SessionManager).destroy 7).1).destroy 7
        = (((⟨[(7, 3)]⟩ : SessionManager).destroy 7).1, []) :=
  claim_C2_destroy_idempotent ⟨[(7, 3)]⟩ 7

/-! ## Helper lemmas: the prepended user-data-dir argument never looks
like a debug-port argument -/

lemma userDataDirArg_not_debug (d : String) :
    strStartsWith ("--user-data-dir=" ++ d) debugPortPrefix = false := by
  cases d with
  | mk cs =>
      show (debugPortPrefix.data.isPrefixOf
        (("--user-data-dir=" ++ String.mk cs).data)) = false
      have hdata : ("--user-data-dir=" ++ String.mk cs).data
          = "--user-data-dir=".data ++ cs := rfl
      rw [hdata]
      simp [debugPortPrefix, List.isPrefixOf]

lemma find_debug_launchArgs (env : SpawnEnv) (sp : String) (p : ILaunchParams) :
    (launchArgs env sp p).find? (fun a => strStartsWith a debugPortPrefix)
      = p.browserArgs.find? (fun a => strStartsWith a debugPortPrefix) := by
  rw [launchArgs]
  cases getUserDataDir env sp p with
  | none => rfl
  | some dir => simp [List.find?, userDataDirArg_not_debug]

/-- Claim C3 (code bug, evaluated at the failing input):
`BrowserSpawner.launch` never reads `params.wslInfo` — its result is
identical whether or not a nested-distro descriptor is present — and on
a concrete launch carrying `wslInfo` it spawns the resolved browser
binary itself with the descriptor-3/4 pipe transport, not the nested
distro's `execPath` with stdin/stdout as the transport, contradicting
the `IWslInfo` documentation (cli.ts:5-9) and spec §4.4. -/
theorem claim_C3_wsl_ignored :
    (∀ (env : SpawnEnv) (sp : String) (p : ILaunchParams) (w : Option IWslInfo),
        launch env sp { p with wslInfo := w } = launch env sp p)
    ∧ launch ⟨fun _ => [], fun _ => false, "/cwd", false⟩ "/state"
        { type := BrowserType.chrome, path := "", proxyUri := "", launchId := 1,
          browserArgs := ["about:blank"],
          wslInfo := some ⟨"/usr/bin/wsl-exec", "Ubuntu", "user"⟩,
          attach := none,
          params := { runtimeExecutable := "/opt/chrome",
                      userDataDir := UserDataDirReq.ofBool false,
                      cwd := none, webRoot := none } }
        = Except.ok (LaunchTarget.piped
            { command := "/opt/chrome", args := ["about:blank"],
              detached := true, stdio := StdioConfig.pipeFds34, cwd := "/cwd" })
    ∧ ("/opt/chrome" : String) ≠ "/usr/bin/wsl-exec" := by
  refine ⟨?_, rfl, by decide⟩
  intro env sp p w
  cases p
  rfl

/-- Claim C4 (counterexample): with
`browserArgs = ["--remote-debugging-port="]` an element of `browserArgs`
does start with `--remote-debugging-port=`, yet `launch` returns a
pipe-backed target spawned with pipes on descriptors 3 and 4 (the
port suffix is empty, hence falsy in `if (!port)`), not a socket-backed
target with ignored stdio. -/
theorem claim_C4_counterexample :
    ((["--remote-debugging-port="] : List String).any
        (fun a => strStartsWith a debugPortPrefix)) = true
    ∧ launch ⟨fun _ => [], fun _ => false, "/cwd", false⟩ "/state"
        { type := BrowserType.chrome, path := "", proxyUri := "", launchId := 2,
          browserArgs := ["--remote-debugging-port="],
          wslInfo := none, attach := none,
          params := { runtimeExecutable := "/opt/chrome",
                      userDataDir := UserDataDirReq.ofBool false,
                      cwd := none, webRoot := none } }
        = Except.ok (LaunchTarget.piped
            { command := "/opt/chrome", args := ["--remote-debugging-port="],
              detached := true, stdio := StdioConfig.pipeFds34, cwd := "/cwd" }) :=
  ⟨rfl, rfl⟩

/-- Claim C4 (amended): on every successful launch, the target is
pipe-backed with pipes on descriptors 3 and 4 exactly when the first
element of `browserArgs` starting with `--remote-debugging-port=`
either does not exist or has an empty remainder after that prefix;
otherwise the target is socket-backed with ignored stdio, its port
taken from the remainder of that first matching element (the prepended
`--user-data-dir` argument never matches the prefix, so matching over
`browserArgs` and over the final argument list agree). -/
theorem claim_C4_amended (env : SpawnEnv) (sp : String) (p : ILaunchParams)
    (r : LaunchTarget) (h : launch env sp p = Except.ok r) :
    match p.browserArgs.find? (fun a => strStartsWith a debugPortPrefix) with
    | none => ∃ c, r = LaunchTarget.piped c ∧ c.stdio = StdioConfig.pipeFds34
    | some a =>
        if strDrop a debugPortPrefix.length = "" then
          ∃ c, r = LaunchTarget.piped c ∧ c.stdio = StdioConfig.pipeFds34
        else
          ∃ c, r = LaunchTarget.server c (strDrop a debugPortPrefix.length)
            ∧ c.stdio = StdioConfig.ignoreAll := by
  rw [launch] at h
  cases hfb : findBrowserPath env p.type p.params.runtimeExecutable with
  | error e =>
      rw [hfb] at h
      cases h
  | ok binary =>
      rw [hfb] at h
      simp only [find_debug_launchArgs] at h
      cases hfind : p.browserArgs.find? (fun a => strStartsWith a debugPortPrefix) with
      | none =>
          rw [hfind] at h
          simp only [Option.map_none'] at h
          cases h
          exact ⟨_, rfl, rfl⟩
      | some a =>
          rw [hfind] at h
          simp only [Option.map_some'] at h
          by_cases hp : strDrop a debugPortPrefix.length = ""
          · simp only [hp, if_pos rfl] at h ⊢
            cases h
            exact ⟨_, rfl, rfl⟩
          · simp only [if_neg hp] at h ⊢
            cases h
            exact ⟨_, rfl, rfl⟩

/-- Witness for `claim_C4_amended` on a concrete socket-mode launch. -/
theorem claim_C4_witness :
    match (["--remote-debugging-port=9229"] : List String).find?
        (fun a => strStartsWith a debugPortPrefix) with
    | none => ∃ c, (LaunchTarget.server
        { command := "/opt/chrome",
          args := ["--remote-debugging-port=", "--remote-debugging-port=9229"],
          detached := true, stdio := StdioConfig.ignoreAll, cwd := "/cwd" } "9229")
          = LaunchTarget.piped c ∧ c.stdio = StdioConfig.pipeFds34
    | some a =>
        if strDrop a debugPortPrefix.length = "" then
          ∃ c, (LaunchTarget.server
            { command := "/opt/chrome",
              args := ["--remote-debugging-port=", "--remote-debugging-port=9229"],
              detached := true, stdio := StdioConfig.ignoreAll, cwd := "/cwd" } "9229")
            = LaunchTarget.piped c ∧ c.stdio = StdioConfig.pipeFds34
        else
          ∃ c, (LaunchTarget.server
            { command := "/opt/chrome",
              args := ["--remote-debugging-port=", "--remote-debugging-port=9229"],
              detached := true, stdio := StdioConfig.ignoreAll, cwd := "/cwd" } "9229")
            = LaunchTarget.server c (strDrop a debugPortPrefix.length)
            ∧ c.stdio = StdioConfig.ignoreAll :=
  claim_C4_amended ⟨fun _ => [], fun _ => false, "/cwd", false⟩ "/state"
    { type := BrowserType.chrome, path := "", proxyUri := "", launchId := 2,
      browserArgs := ["--remote-debugging-port=9229"],
      wslInfo := none, attach := none,
      params := { runtimeExecutable := "/opt/chrome",
                  userDataDir := UserDataDirReq.ofBool false,
                  cwd := none, webRoot := none } } _ rfl

/-- Claim C5: executable resolution. A `runtimeExecutable` that is
neither `*` nor a known quality name is used verbatim; `*` picks the
stable installation, falling back to the first discovered one; a quality
name with no matching installation makes `findBrowserPath` fail with a
`UserError`, and that failure propagates through `launch` unchanged (no
retry), so no Target is created. -/
theorem claim_C5_executable_resolution :
    (∀ (env : SpawnEnv) (t : BrowserType) (rexe : String),
        rexe ≠ "*" → isQuality rexe = false →
        findBrowserPath env t rexe = Except.ok rexe)
    ∧ (∀ (env : SpawnEnv) (t : BrowserType) (r : Installation),
        (env.findAll t).find? (fun i => i.quality == "stable") = some r →
        findBrowserPath env t "*" = Except.ok r.path)
    ∧ (∀ (env : SpawnEnv) (t : BrowserType) (i : Installation)
          (rest : List Installation),
        (env.findAll t).find? (fun i => i.quality == "stable") = none →
        env.findAll t = i :: rest →
        findBrowserPath env t "*" = Except.ok i.path)
    ∧ (∀ (env : SpawnEnv) (t : BrowserType) (rexe : String),
        isQuality rexe = true →
        (env.findAll t).find? (fun i => i.quality == rexe) = none →
        ∃ e, findBrowserPath env t rexe = Except.error e)
    ∧ (∀ (env : SpawnEnv) (sp : String) (p : ILaunchParams) (e : SpawnError),
        findBrowserPath env p.type p.params.runtimeExecutable = Except.error e →
        launch env sp p = Except.error e) := by
  refine ⟨?_, ?_, ?_, ?_, ?_⟩
  · intro env t rexe h1 h2
    simp [findBrowserPath, h1, h2]
  · intro env t r hfind
    simp [findBrowserPath, hfind, Option.orElse]
  · intro env t i rest hfind hall
    rw [hall] at hfind
    simp [findBrowserPath, hall, hfind, Option.orElse]
  · intro env t rexe hq hfind
    have hne : rexe ≠ "*" := by
      intro he
      rw [he] at hq
      cases hq
    rw [findBrowserPath]
    rw [if_neg (by simp [hq])]
    simp only [if_neg hne, hfind, Option.orElse]
    split
    · exact ⟨_, rfl⟩
    · exact ⟨_, rfl⟩
  · intro env sp p e hfb
    rw [launch, hfb]

/-- Witness for `claim_C5_executable_resolution`: a verbatim path, a
stable pick, a first-installation fallback, a failing quality lookup,
and the failure propagating through `launch`. -/
theorem claim_C5_witness :
    findBrowserPath ⟨fun _ => [], fun _ => false, "/", false⟩
        BrowserType.chrome "/opt/x" = Except.ok "/opt/x"
    ∧ findBrowserPath
        ⟨fun _ => [⟨"stable", "/st"⟩, ⟨"beta", "/be"⟩], fun _ => false, "/", false⟩
        BrowserType.chrome "*" = Except.ok ("/st" : String)
    ∧ findBrowserPath ⟨fun _ => [⟨"beta", "/be"⟩], fun _ => false, "/", false⟩
        BrowserType.chrome "*" = Except.ok ("/be" : String)
    ∧ (∃ e, findBrowserPath ⟨fun _ => [], fun _ => false, "/", false⟩
        BrowserType.chrome "canary" = Except.error e)
    ∧ launch ⟨fun _ => [], fun _ => false, "/", false⟩ "/state"
        { type := BrowserType.chrome, path := "", proxyUri := "", launchId := 4,
          browserArgs := [], wslInfo := none, attach := none,
          params := { runtimeExecutable := "canary",
                      userDataDir := UserDataDirReq.ofBool false,
                      cwd := none, webRoot := none } }
        = Except.error (SpawnError.versionNotFound BrowserType.chrome "canary" []) :=
  ⟨claim_C5_executable_resolution.1 _ _ _ (by decide) rfl,
   claim_C5_executable_resolution.2.1 _ _ ⟨"stable", "/st"⟩ rfl,
   claim_C5_executable_resolution.2.2.1 _ _ ⟨"beta", "/be"⟩ [] rfl rfl,
   claim_C5_executable_resolution.2.2.2.1 _ _ "canary" rfl rfl,
   claim_C5_executable_resolution.2.2.2.2 _ _ _ _ rfl⟩

lemma launch_ok_args (env : SpawnEnv) (sp : String) (p : ILaunchParams)
    (r : LaunchTarget) (h : launch env sp p = Except.ok r) :
    r.spawnArgs = launchArgs env sp p
    ∨ r.spawnArgs = debugPipeArg :: launchArgs env sp p := by
  cases hfb : findBrowserPath env p.type p.params.runtimeExecutable with
  | error e =>
      rw [launch, hfb] at h
      cases h
  | ok binary =>
      rw [launch, hfb] at h
      simp only [] at h
      cases hfm : (launchArgs env sp p).find? (fun a => strStartsWith a debugPortPrefix) with
      | none =>
          rw [hfm] at h
          simp only [Option.map_none'] at h
          cases h
          left
          rfl
      | some a =>
          rw [hfm] at h
          simp only [Option.map_some'] at h
          by_cases hp : strDrop a debugPortPrefix.length = ""
          · simp only [if_pos hp] at h
            cases h
            left
            rfl
          · simp only [if_neg hp] at h
            by_cases hc : (launchArgs env sp p).contains debugPipeArg
            · simp only [if_pos hc] at h
              cases h
              left
              rfl
            · simp only [if_neg hc] at h
              cases h
              right
              rfl

lemma launchArgs_eq (env : SpawnEnv) (sp : String) (p : ILaunchParams) :
    launchArgs env sp p =
      match p.params.userDataDir with
      | UserDataDirReq.ofBool false => p.browserArgs
      | UserDataDirReq.ofBool true =>
          ("--user-data-dir=" ++ pathJoin sp
            (if p.browserArgs.contains "--headless" then ".headless-profile"
             else ".profile")) :: p.browserArgs
      | UserDataDirReq.ofString s =>
          ("--user-data-dir=" ++
            (if env.fsExists s then s
             else pathJoin sp
               (if p.browserArgs.contains "--headless" then ".headless-profile"
                else ".profile"))) :: p.browserArgs := by
  cases hud : p.params.userDataDir with
  | ofBool b =>
      cases b
      · simp [launchArgs, getUserDataDir, hud]
      · simp [launchArgs, getUserDataDir, hud]
  | ofString s =>
      simp only [launchArgs, getUserDataDir, hud]
      cases env.fsExists s <;> simp

/-- Claim C10 (counterexample): with `userDataDir: true` and
`browserArgs = ["--remote-debugging-port=9222"]`, the socket branch
prepends the bare `--remote-debugging-port=` compatibility argument
*after* (hence in front of) the `--user-data-dir` argument, so the
first spawned argument is not `--user-data-dir=<dir>` as claimed. -/
theorem claim_C10_counterexample :
    launch ⟨fun _ => [], fun _ => false, "/cwd", false⟩ "/state"
      { type := BrowserType.chrome, path := "", proxyUri := "", launchId := 3,
        browserArgs := ["--remote-debugging-port=9222"],
        wslInfo := none, attach := none,
        params := { runtimeExecutable := "/opt/chrome",
                    userDataDir := UserDataDirReq.ofBool true,
                    cwd := none, webRoot := none } }
      = Except.ok (LaunchTarget.server
          { command := "/opt/chrome",
            args := ["--remote-debugging-port=", "--user-data-dir=/state/.profile",
                     "--remote-debugging-port=9222"],
            detached := true, stdio := StdioConfig.ignoreAll, cwd := "/cwd" } "9222")
    ∧ (["--remote-debugging-port=", "--user-data-dir=/state/.profile",
        "--remote-debugging-port=9222"] : List String).head?
        = some "--remote-debugging-port="
    ∧ strStartsWith "--remote-debugging-port=" "--user-data-dir=" = false :=
  ⟨rfl, rfl, rfl⟩

/-- Claim C10 (amended): on every successful launch, when
`params.params.userDataDir` is `false` the spawned argument list is
`browserArgs` itself (at most with the bare `--remote-debugging-port=`
compatibility argument prepended in the socket case); otherwise a single
`--user-data-dir=<dir>` argument is placed in front of the caller's
`browserArgs` (again, in the socket case, possibly behind the bare
compatibility argument), where `<dir>` is the requested directory when
`userDataDir` is a string naming an existing path, and otherwise is
`storagePath` joined with `.headless-profile` when `browserArgs`
contains `--headless` and with `.profile` when it does not. -/
theorem claim_C10_amended (env : SpawnEnv) (sp : String) (p : ILaunchParams)
    (r : LaunchTarget) (h : launch env sp p = Except.ok r) :
    match p.params.userDataDir with
    | UserDataDirReq.ofBool false =>
        r.spawnArgs = p.browserArgs
        ∨ r.spawnArgs = debugPipeArg :: p.browserArgs
    | UserDataDirReq.ofBool true =>
        r.spawnArgs = ("--user-data-dir=" ++ pathJoin sp
            (if p.browserArgs.contains "--headless" then ".headless-profile"
             else ".profile")) :: p.browserArgs
        ∨ r.spawnArgs = debugPipeArg :: ("--user-data-dir=" ++ pathJoin sp
            (if p.browserArgs.contains "--headless" then ".headless-profile"
             else ".profile")) :: p.browserArgs
    | UserDataDirReq.ofString s =>
        r.spawnArgs = ("--user-data-dir=" ++
            (if env.fsExists s then s
             else pathJoin sp
               (if p.browserArgs.contains "--headless" then ".headless-profile"
                else ".profile"))) :: p.browserArgs
        ∨ r.spawnArgs = debugPipeArg :: ("--user-data-dir=" ++
            (if env.fsExists s then s
             else pathJoin sp
               (if p.browserArgs.contains "--headless" then ".headless-profile"
                else ".profile"))) :: p.browserArgs := by
  have hshape := launch_ok_args env sp p r h
  rw [launchArgs_eq] at hshape
  cases hud : p.params.userDataDir with
  | ofBool b =>
      rw [hud] at hshape
      cases b
      · exact hshape
      · exact hshape
  | ofString s =>
      rw [hud] at hshape
      exact hshape

/-- Witness for `claim_C10_amended` on a concrete pipe-mode launch with
`userDataDir: false`. -/
theorem claim_C10_witness :
    (LaunchTarget.piped
        { command := "/opt/chrome", args := ["about:blank"], detached := true,
          stdio := StdioConfig.pipeFds34, cwd := "/cwd" }).spawnArgs
      = ["about:blank"]
    ∨ (LaunchTarget.piped
        { command := "/opt/chrome", args := ["about:blank"], detached := true,
          stdio := StdioConfig.pipeFds34, cwd := "/cwd" }).spawnArgs
      = debugPipeArg :: ["about:blank"] :=
  claim_C10_amended ⟨fun _ => [], fun _ => false, "/cwd", false⟩ "/state"
    { type := BrowserType.chrome, path := "", proxyUri := "", launchId := 3,
      browserArgs := ["about:blank"],
      wslInfo := none, attach := none,
      params := { runtimeExecutable := "/opt/chrome",
                  userDataDir := UserDataDirReq.ofBool false,
                  cwd := none, webRoot := none } } _ rfl
